import Mathlib

/-!
  Verification of the SignLink repository's hand-region extraction,
  websocket streaming adapter, settings/auth endpoints and image
  prediction pipeline, as shallow Lean embeddings of the Python source.

  Conventions of the embedding:
  * MediaPipe normalized landmark coordinates are rationals (ℚ);
    frame dimensions are naturals; pixel coordinates are integers.
  * Python `int(...)` on a nonnegative/negative float truncates toward
    zero; `py_int` mirrors that on ℚ.
  * External black boxes (MediaPipe detection itself, cv2 decode/encode,
    the Roboflow client, bcrypt hashing) are parameters of the embedded
    functions; the repository's own control flow around them is embedded
    from the source.
-/

namespace SignLink

/-- Python `int(q)` for a rational: truncation toward zero.  On the reduced
fraction `num/den` (with `den > 0`) this is truncated integer division. -/
def py_int (q : ℚ) : ℤ :=
  q.num.tdiv q.den

/-- A single MediaPipe hand landmark: normalized x, y in (roughly) [0,1]. -/
structure Landmark where
  x : ℚ
  y : ℚ
deriving DecidableEq, Repr

/-- One detected hand: MediaPipe's `.landmark` list always has at least one
point (21 in practice), and the Python `min(...)`/`max(...)` below require
nonemptiness, so a hand is a nonempty list of landmarks. -/
structure Hand where
  fst : Landmark
  rest : List Landmark
deriving DecidableEq, Repr

/-- The full `.landmark` list of a hand. -/
def Hand.landmark (hd : Hand) : List Landmark :=
  hd.fst :: hd.rest

/-- Python `min(l.x for l in lm)` over the hand's landmark list. -/
def Hand.x_min (hd : Hand) : ℚ :=
  (hd.rest.map Landmark.x).foldl min hd.fst.x

/-- Python `max(l.x for l in lm)` over the hand's landmark list. -/
def Hand.x_max (hd : Hand) : ℚ :=
  (hd.rest.map Landmark.x).foldl max hd.fst.x

/-- Python `min(l.y for l in lm)` over the hand's landmark list. -/
def Hand.y_min (hd : Hand) : ℚ :=
  (hd.rest.map Landmark.y).foldl min hd.fst.y

/-- Python `max(l.y for l in lm)` over the hand's landmark list. -/
def Hand.y_max (hd : Hand) : ℚ :=
  (hd.rest.map Landmark.y).foldl max hd.fst.y

/-- A decoded frame: `h, w, _ = frame.shape`. -/
structure Frame where
  h : ℕ
  w : ℕ
deriving DecidableEq, Repr

/-- The bounding box of a successful crop: the slice
`frame[y_min:y_max, x_min:x_max]` returned by `crop_hand_from_frame`. -/
structure BBox where
  x_min : ℤ
  y_min : ℤ
  x_max : ℤ
  y_max : ℤ
deriving DecidableEq, Repr

/-- Embedding of `crop_hand_from_frame` (src/SignLink.API/utils/mediapipe_utils.py,
lines 56-88).  `multi_hand_landmarks` is the detector's result: the empty list is
Python-falsy (`if not results.multi_hand_landmarks: return None`).  Otherwise the
bounding box of the first hand's landmarks is computed, padded by 20 px, clamped
(`max(0, ·-pad)` below, `min(w, ·+pad)` / `min(h, ·+pad)` above), and a degenerate
box (`x_max <= x_min or y_max <= y_min`) yields `None`.  The returned value models
the crop by its bounding box. -/
def crop_hand_from_frame (frame : Frame) (multi_hand_landmarks : List Hand) :
    Option BBox :=
  match multi_hand_landmarks with
  | [] => none
  | hand :: _ =>
    let w : ℤ := frame.w
    let hgt : ℤ := frame.h
    let x_min := py_int (hand.x_min * (frame.w : ℚ))
    let x_max := py_int (hand.x_max * (frame.w : ℚ))
    let y_min := py_int (hand.y_min * (frame.h : ℚ))
    let y_max := py_int (hand.y_max * (frame.h : ℚ))
    let pad : ℤ := 20
    let x_min := max 0 (x_min - pad)
    let y_min := max 0 (y_min - pad)
    let x_max := min w (x_max + pad)
    let y_max := min hgt (y_max + pad)
    if x_max ≤ x_min ∨ y_max ≤ y_min then none
    else some ⟨x_min, y_min, x_max, y_max⟩

/-! ### Websocket streaming adapter (translate_webcam.py) -/

/-- Python `data.startswith(pre)`: `pre` is a prefix of `data`, on the
character sequences. -/
def startswith (data pre : String) : Bool :=
  pre.data.isPrefixOf data.data

/-- The outcome of decoding one received websocket text message:
`cv2.imdecode` yields a frame, and `hands.process` reports the detected
hands on it (both external; the pair is what the loop body consumes). -/
structure WsDecoded where
  frame : Frame
  hands : List Hand

/-- An outbound websocket message: either the re-encoded JPEG frame
(`websocket.send_bytes(buffer.tobytes())`) or the prediction JSON
(`websocket.send_json({"prediction": prediction_data})`); the prediction
payload is `None` when no hand was cropped, else the provider's response
(modelled as an uninterpreted string). -/
inductive WsOut where
  | frameJpeg (bytes : List ℕ)
  | predictionJson (prediction : Option String)
deriving DecidableEq, Repr

/-- One iteration of the websocket receive loop, embedded from
`websocket_endpoint` (src/SignLink.API/translate_webcam.py, lines 72-144;
the routers/translate_webcam.py revision is identical except that it omits
the failed-decode `continue` guard).  External steps are parameters:
`decode` is base64-decode + `cv2.imdecode` + `hands.process`, `encodeJpeg`
is `cv2.imencode(".jpg", frame)`, `run_asl_inference` is the Roboflow call
on the cropped hand.  A message that does not start with `"data:image"`, or
whose frame fails to decode, is skipped (`continue`: no messages sent);
otherwise the annotated frame bytes are sent, then the prediction JSON. -/
def ws_step (decode : String → Option WsDecoded) (encodeJpeg : Frame → List ℕ)
    (run_asl_inference : BBox → String) (data : String) : List WsOut :=
  if ¬ startswith data "data:image" then []
  else
    match decode data with
    | none => []
    | some d =>
      let cropped_img := crop_hand_from_frame d.frame d.hands
      let prediction_data := cropped_img.map run_asl_inference
      [WsOut.frameJpeg (encodeJpeg d.frame), WsOut.predictionJson prediction_data]

/-- A concrete incoming websocket data URL, for witnesses. -/
def ws_demo_data : String :=
  "data:image/jpeg;base64,AAAA"

/-- A concrete decode function for witnesses: decodes only `ws_demo_data`,
to a 100×100 frame with no detected hand. -/
def ws_demo_decode (s : String) : Option WsDecoded :=
  if startswith s "data:image" then some ⟨⟨100, 100⟩, []⟩ else none

/-- A concrete JPEG encoder for witnesses. -/
def ws_demo_encode (f : Frame) : List ℕ :=
  [f.h, f.w]

/-- A concrete inference stub for witnesses. -/
def ws_demo_infer (_b : BBox) : String :=
  "A"

/-! ### HTTP result type -/

/-- The observable outcome of an endpoint call: a successful return value, or
a raised `HTTPException(status_code, detail)`. -/
inductive ApiResult (α : Type) where
  | ok (value : α)
  | httpError (status : ℕ) (detail : String)
deriving DecidableEq, Repr

/-! ### Settings endpoints (routers/settings.py) -/

/-- A row of the USER_SETTINGS table (the columns the endpoints read/write;
the UUID primary key and audit timestamps are DB-side defaults). -/
structure SettingsRow where
  USER_ID : ℤ
  SPEECH_ENABLED : Bool
  WEBCAM_ENABLED : Bool
deriving DecidableEq, Repr

/-- The USER_SETTINGS table state, in insertion order. -/
abbrev SettingsDB := List SettingsRow

/-- The `SettingsCreate` request body (user_id plus the two boolean flags). -/
structure SettingsCreate where
  user_id : ℤ
  speech_enabled : Bool
  webcam_enabled : Bool
deriving DecidableEq, Repr

/-- The lookup
`db.query(UserSettings).filter(UserSettings.USER_ID == user_id).first()`. -/
def settings_query_first (db : SettingsDB) (user_id : ℤ) : Option SettingsRow :=
  db.find? (fun row => row.USER_ID == user_id)

/-- Embedding of `get_settings` (src/SignLink.API/routers/settings.py,
lines 55-64): look up the row by user id, 404 if absent. -/
def get_settings (user_id : ℤ) (db : SettingsDB) : ApiResult SettingsRow :=
  match settings_query_first db user_id with
  | none => .httpError 404 "User settings not found"
  | some settings => .ok settings

/-- Embedding of `create_settings` (src/SignLink.API/routers/settings.py,
lines 69-87): 400 if a row for this user already exists, otherwise insert a
new row with the supplied flags and return it; the pair is
(response, table state after the request). -/
def create_settings (settings : SettingsCreate) (db : SettingsDB) :
    ApiResult SettingsRow × SettingsDB :=
  match settings_query_first db settings.user_id with
  | some _ => (.httpError 400 "Settings already exist for this user", db)
  | none =>
    let new_settings : SettingsRow :=
      ⟨settings.user_id, settings.speech_enabled, settings.webcam_enabled⟩
    (.ok new_settings, db ++ [new_settings])

/-! ### Auth endpoints (routers/auth.py) -/

/-- A row of the USER_INFORMATION table (the columns the endpoints touch). -/
structure UserRow where
  USER_ID : ℤ
  USERNAME : String
  FIRST_NAME : String
  LAST_NAME : String
  EMAIL : String
  PASSWORD : String
deriving DecidableEq, Repr

/-- The USER_INFORMATION table state, in insertion order. -/
abbrev UserDB := List UserRow

/-- The `UserCreate` signup request body. -/
structure UserCreate where
  first_name : String
  last_name : String
  email : String
  username : String
  password : String
deriving DecidableEq, Repr

/-- The `UserLogin` request body. -/
structure UserLogin where
  username : String
  password : String
deriving DecidableEq, Repr

/-- The sanitized user dict returned by both signup and login
(id, username, first/last name, email; never the password). -/
structure UserResponse where
  id : ℤ
  username : String
  first_name : String
  last_name : String
  email : String
deriving DecidableEq, Repr

/-- The signup duplicate check:
`db.query(UserInformation).filter((USERNAME == user.username) | (EMAIL == user.email)).first()`. -/
def user_dup_query (db : UserDB) (user : UserCreate) : Option UserRow :=
  db.find? (fun row => row.USERNAME == user.username || row.EMAIL == user.email)

/-- Embedding of `signup` (src/SignLink.API/routers/auth.py, lines 65-110).
`hash` abstracts `pwd_context.hash` after the 72-byte truncation (bcrypt is an
external black box), and `next_id` is the autoincrement key the database
assigns on insert.  The last component of the result counts how many times
the password hashing function ran during the request.  On a duplicate
username or email the endpoint raises 400 with the table untouched;
otherwise it hashes once, inserts the row, and returns the sanitized dict. -/
def signup (hash : String → String) (next_id : ℤ) (user : UserCreate)
    (db : UserDB) : ApiResult UserResponse × UserDB × ℕ :=
  match user_dup_query db user with
  | some _ => (.httpError 400 "Username or email already exists", db, 0)
  | none =>
    let hashed_pw := hash user.password
    let new_user : UserRow :=
      ⟨next_id, user.username, user.first_name, user.last_name, user.email,
        hashed_pw⟩
    (.ok ⟨next_id, user.username, user.first_name, user.last_name, user.email⟩,
      db ++ [new_user], 1)

/-- The login lookup:
`db.query(UserInformation).filter(UserInformation.USERNAME == user.username).first()`. -/
def login_query (db : UserDB) (username : String) : Option UserRow :=
  db.find? (fun row => row.USERNAME == username)

/-- Embedding of `login` (src/SignLink.API/routers/auth.py, lines 115-135).
`verify` abstracts `pwd_context.verify(password, stored_hash)`.  The source's
`if not db_user or not pwd_context.verify(...)` raises the one generic 401;
with Python's short-circuit `or` that is the match/if below. -/
def login (verify : String → String → Bool) (user : UserLogin) (db : UserDB) :
    ApiResult UserResponse :=
  match login_query db user.username with
  | none => .httpError 401 "Invalid credentials"
  | some db_user =>
    if ¬ verify user.password db_user.PASSWORD then
      .httpError 401 "Invalid credentials"
    else
      .ok ⟨db_user.USER_ID, db_user.USERNAME, db_user.FIRST_NAME,
        db_user.LAST_NAME, db_user.EMAIL⟩

/-! ### Application wiring and health endpoint -/

/-- Modelled from the spec: the top-level FastAPI application that mounts the
routers and defines the health check is not present under src/ (src holds the
routers and an older standalone app.py without it).  Per the spec's EXTERNAL
INTERFACES section, the app's plain GET routes map `/health` to the JSON
object `{"status": "ok"}`, here a JSON object as a field list. -/
def app_get_routes : List (String × List (String × String)) :=
  [("/health", [("status", "ok")])]

/-- Modelled from the spec: dispatching a GET request against the app's plain
GET routes returns the matching handler's JSON body, if the path is routed. -/
def app_handle_get (path : String) : Option (List (String × String)) :=
  (app_get_routes.find? (fun route => route.1 == path)).map Prod.snd

/-! ### Image prediction endpoint (translate_image.py) -/

/-- What happens inside `preprocess_with_mediapipe`'s try block on a given
image path (all external effects: `cv2.imread`, MediaPipe detection, file
writes): an exception anywhere, no hand landmarks detected, or a detected
hand whose crop is written next to the input file. -/
inductive MPOutcome where
  | exn
  | noHand
  | detected
deriving DecidableEq, Repr

/-- Embedding of `preprocess_with_mediapipe` (src/SignLink.API/translate_image.py,
lines 55-103): on an exception (the whole body is one try/except) or when no
hand is detected, the original `image_path` is returned unchanged; on a
detected hand the cropped file's path `image_path.replace(".jpg", "_cropped.jpg")`
is returned. -/
def preprocess_with_mediapipe (outcome : String → MPOutcome)
    (image_path : String) : String :=
  match outcome image_path with
  | .exn => image_path
  | .noHand => image_path
  | .detected => image_path.replace ".jpg" "_cropped.jpg"

/-- Embedding of the `predict_image` endpoint (src/SignLink.API/translate_image.py,
lines 108-139): the uploaded bytes are saved at `temp_path`, preprocessing
picks the path to classify, and `client.run_workflow` is called on it;
its JSON is returned on success, and any exception becomes a 500 whose body
echoes the message (`run_workflow` models the provider call, `Except.error`
its exception). -/
def predict_image (outcome : String → MPOutcome)
    (run_workflow : String → Except String String) (temp_path : String) :
    ApiResult String :=
  let cropped_path := preprocess_with_mediapipe outcome temp_path
  match run_workflow cropped_path with
  | .error e => .httpError 500 e
  | .ok result => .ok result

end SignLink

namespace SignLink

/-- C1: whenever `crop_hand_from_frame` returns a cropped region, its bounding
box is strictly increasing in both axes (`x_min < x_max` and `y_min < y_max`);
a degenerate or inverted box is never produced. -/
theorem crop_box_nondegenerate (frame : Frame) (mhl : List Hand) (b : BBox)
    (h : crop_hand_from_frame frame mhl = some b) :
    b.x_min < b.x_max ∧ b.y_min < b.y_max := by
  match mhl with
  | [] => simp [crop_hand_from_frame] at h
  | hand :: hs =>
    simp only [crop_hand_from_frame] at h
    split at h
    · exact absurd h (by simp)
    · rename_i hguard
      push_neg at hguard
      obtain ⟨hx, hy⟩ := hguard
      obtain rfl : BBox.mk _ _ _ _ = b := Option.some.inj h
      exact ⟨hx, hy⟩

/-- Witness for C1 at a concrete input: a 100×100 frame and a single landmark
at normalized (1/2, 1/2) produce the box (30,30)–(70,70). -/
theorem crop_box_nondegenerate_witness :
    crop_hand_from_frame ⟨100, 100⟩ [⟨⟨1/2, 1/2⟩, []⟩] =
      some ⟨30, 30, 70, 70⟩ ∧ ((30 : ℤ) < 70 ∧ (30 : ℤ) < 70) :=
  ⟨by norm_num [crop_hand_from_frame, py_int, Hand.x_min, Hand.x_max,
      Hand.y_min, Hand.y_max],
    crop_box_nondegenerate ⟨100, 100⟩ [⟨⟨1/2, 1/2⟩, []⟩] ⟨30, 30, 70, 70⟩
      (by norm_num [crop_hand_from_frame, py_int, Hand.x_min, Hand.x_max,
        Hand.y_min, Hand.y_max])⟩

/-- C2: when the hand detector returns no landmarks (`multi_hand_landmarks`
empty, Python-falsy), `crop_hand_from_frame` returns `None` for every frame. -/
theorem crop_no_hand_returns_none (frame : Frame) :
    crop_hand_from_frame frame [] = none :=
  rfl

/-- C3 counterexample: in a 100×100 frame, a landmark at normalized (1, 1)
yields the box (80, 80)–(100, 100): `x_max` equals the frame width, so the
coordinates are NOT all strictly below the width/height — the upper bounds are
clamped with `min(w, x_max + pad)`, which allows `x_max = w` (and `y_max = h`),
refuting the half-open `[0, width)`/`[0, height)` claim. -/
theorem crop_clamp_not_half_open :
    crop_hand_from_frame ⟨100, 100⟩ [⟨⟨1, 1⟩, []⟩] = some ⟨80, 80, 100, 100⟩ ∧
      ¬((100 : ℤ) < (100 : ℕ)) :=
  ⟨by norm_num [crop_hand_from_frame, py_int, Hand.x_min, Hand.x_max,
      Hand.y_min, Hand.y_max], by norm_num⟩

/-- C3 amended: after the 20-px padding, the lower coordinates are clamped to
`[0, width)`/`[0, height)` and the upper coordinates to `(0, width]`/`(0, height]`:
whenever a box is returned, `0 ≤ x_min < x_max ≤ w` and `0 ≤ y_min < y_max ≤ h`
(the maxima may equal the frame dimensions, as befits exclusive slice ends). -/
theorem crop_box_clamped (frame : Frame) (mhl : List Hand) (b : BBox)
    (h : crop_hand_from_frame frame mhl = some b) :
    (0 ≤ b.x_min ∧ b.x_min < (frame.w : ℤ) ∧ 0 < b.x_max ∧ b.x_max ≤ (frame.w : ℤ)) ∧
    (0 ≤ b.y_min ∧ b.y_min < (frame.h : ℤ) ∧ 0 < b.y_max ∧ b.y_max ≤ (frame.h : ℤ)) := by
  match mhl with
  | [] => simp [crop_hand_from_frame] at h
  | hand :: hs =>
    simp only [crop_hand_from_frame] at h
    split at h
    · exact absurd h (by simp)
    · rename_i hguard
      push_neg at hguard
      obtain rfl : BBox.mk _ _ _ _ = b := Option.some.inj h
      dsimp only
      omega

/-- Witness for the amended C3 at a concrete input: a 50×50 frame and a single
landmark at normalized (1/2, 1/2) produce the box (5, 5)–(45, 45). -/
theorem crop_box_clamped_witness :
    crop_hand_from_frame ⟨50, 50⟩ [⟨⟨1/2, 1/2⟩, []⟩] = some ⟨5, 5, 45, 45⟩ ∧
      (((0 : ℤ) ≤ 5 ∧ (5 : ℤ) < 50 ∧ (0 : ℤ) < 45 ∧ (45 : ℤ) ≤ 50) ∧
        ((0 : ℤ) ≤ 5 ∧ (5 : ℤ) < 50 ∧ (0 : ℤ) < 45 ∧ (45 : ℤ) ≤ 50)) :=
  ⟨by norm_num [crop_hand_from_frame, py_int, Hand.x_min, Hand.x_max,
      Hand.y_min, Hand.y_max],
    by
      have h2 := crop_box_clamped ⟨50, 50⟩ [⟨⟨1/2, 1/2⟩, []⟩] ⟨5, 5, 45, 45⟩
        (by norm_num [crop_hand_from_frame, py_int, Hand.x_min, Hand.x_max,
          Hand.y_min, Hand.y_max])
      dsimp only at h2
      exact_mod_cast h2⟩

/-- C4: for every websocket message that is received and successfully decoded
into a frame, the loop body sends exactly two messages, in a fixed order:
first the binary JPEG of the frame, then the JSON `{"prediction": ...}` whose
payload is the inference result on the cropped hand (or `None` without one). -/
theorem ws_two_messages_per_frame (decode : String → Option WsDecoded)
    (encodeJpeg : Frame → List ℕ) (run_asl_inference : BBox → String)
    (data : String) (d : WsDecoded)
    (h1 : startswith data "data:image" = true) (h2 : decode data = some d) :
    ws_step decode encodeJpeg run_asl_inference data =
      [WsOut.frameJpeg (encodeJpeg d.frame),
        WsOut.predictionJson
          ((crop_hand_from_frame d.frame d.hands).map run_asl_inference)] := by
  simp [ws_step, h1, h2]

/-- Witness for C4 at a concrete input: the demo data URL decodes to a
100×100 frame with no detected hand, and the loop body replies with the
JPEG bytes followed by `{"prediction": None}`. -/
theorem ws_two_messages_per_frame_witness :
    startswith ws_demo_data "data:image" = true ∧
      ws_demo_decode ws_demo_data = some ⟨⟨100, 100⟩, []⟩ ∧
      ws_step ws_demo_decode ws_demo_encode ws_demo_infer ws_demo_data =
        [WsOut.frameJpeg [100, 100], WsOut.predictionJson none] := by
  refine ⟨by decide, by simp [ws_demo_decode, ws_demo_data]; decide, ?_⟩
  have h3 := ws_two_messages_per_frame ws_demo_decode ws_demo_encode ws_demo_infer
    ws_demo_data ⟨⟨100, 100⟩, []⟩ (by decide)
    (by simp [ws_demo_decode, ws_demo_data]; decide)
  simpa [ws_demo_encode, crop_hand_from_frame] using h3

/-- Searching an appended singleton: when nothing in `l` satisfies `p` and
the appended element does, the search finds exactly that element. -/
theorem find?_append_right_of_none {α : Type} (p : α → Bool) (l : List α)
    (a : α) (hl : l.find? p = none) (ha : p a = true) :
    (l ++ [a]).find? p = some a := by
  induction l with
  | nil => simp [List.find?, ha]
  | cons x xs ih =>
    rw [List.cons_append]
    cases hpx : p x with
    | true => simp [List.find?, hpx] at hl
    | false =>
      simp only [List.find?, hpx] at hl ⊢
      exact ih hl

/-- C5: creating settings for a user (when creation succeeds) and then
fetching them by that user id returns exactly the boolean flags supplied at
creation. -/
theorem settings_create_then_get_roundtrip (settings : SettingsCreate)
    (db db2 : SettingsDB) (row : SettingsRow)
    (h : create_settings settings db = (.ok row, db2)) :
    get_settings settings.user_id db2 = .ok row ∧
      row.SPEECH_ENABLED = settings.speech_enabled ∧
      row.WEBCAM_ENABLED = settings.webcam_enabled := by
  unfold create_settings at h
  cases hq : settings_query_first db settings.user_id with
  | some r => rw [hq] at h; simp at h
  | none =>
    rw [hq] at h
    simp only [Prod.mk.injEq, ApiResult.ok.injEq] at h
    obtain ⟨hrow, hdb⟩ := h
    subst hdb
    subst hrow
    refine ⟨?_, rfl, rfl⟩
    unfold settings_query_first at hq
    unfold get_settings settings_query_first
    rw [find?_append_right_of_none _ db _ hq (by simp)]

/-- Witness for C5 at a concrete input: creating (user 1, speech on, webcam
off) in an empty table and fetching user 1 returns exactly those flags. -/
theorem settings_create_then_get_roundtrip_witness :
    create_settings ⟨1, true, false⟩ [] =
        (.ok ⟨1, true, false⟩, [⟨1, true, false⟩]) ∧
      (get_settings 1 [⟨1, true, false⟩] = .ok ⟨1, true, false⟩ ∧
        (⟨1, true, false⟩ : SettingsRow).SPEECH_ENABLED = true ∧
        (⟨1, true, false⟩ : SettingsRow).WEBCAM_ENABLED = false) :=
  ⟨by decide,
    settings_create_then_get_roundtrip ⟨1, true, false⟩ [] [⟨1, true, false⟩]
      ⟨1, true, false⟩ (by decide)⟩

/-- C6: a second `POST /settings/` for a user that already has a row raises
400 "Settings already exist for this user" and leaves the table exactly as it
was: no row is added and no flag changes. -/
theorem settings_duplicate_create_conflict (settings : SettingsCreate)
    (db : SettingsDB) (row : SettingsRow)
    (h : settings_query_first db settings.user_id = some row) :
    create_settings settings db =
      (.httpError 400 "Settings already exist for this user", db) := by
  unfold create_settings
  rw [h]

/-- Witness for C6 at a concrete input: user 1 already has a row with
(speech off, webcam on); re-creating with different flags returns 400 and the
table is unchanged. -/
theorem settings_duplicate_create_conflict_witness :
    settings_query_first [⟨1, false, true⟩] 1 = some ⟨1, false, true⟩ ∧
      create_settings ⟨1, true, true⟩ [⟨1, false, true⟩] =
        (.httpError 400 "Settings already exist for this user",
          [⟨1, false, true⟩]) :=
  ⟨by decide,
    settings_duplicate_create_conflict ⟨1, true, true⟩ [⟨1, false, true⟩]
      ⟨1, false, true⟩ (by decide)⟩

/-- C7: a signup whose username or email already exists raises 400, never
invokes the password hashing function (hash count 0: the hash runs only after
the duplicate check passes), and adds no row to USER_INFORMATION. -/
theorem signup_duplicate_rejected_before_hashing (hash : String → String)
    (next_id : ℤ) (user : UserCreate) (db : UserDB) (row : UserRow)
    (h : user_dup_query db user = some row) :
    signup hash next_id user db =
      (.httpError 400 "Username or email already exists", db, 0) := by
  unfold signup
  rw [h]

/-- Witness for C7 at a concrete input: the username "alice" already exists,
so signup returns 400 with the table unchanged and zero hash invocations. -/
theorem signup_duplicate_rejected_before_hashing_witness :
    user_dup_query [⟨1, "alice", "A", "L", "a@x.com", "h1"⟩]
        ⟨"B", "C", "b@x.com", "alice", "pw"⟩ =
        some ⟨1, "alice", "A", "L", "a@x.com", "h1"⟩ ∧
      signup (fun s => s) 2 ⟨"B", "C", "b@x.com", "alice", "pw"⟩
          [⟨1, "alice", "A", "L", "a@x.com", "h1"⟩] =
        (.httpError 400 "Username or email already exists",
          [⟨1, "alice", "A", "L", "a@x.com", "h1"⟩], 0) :=
  ⟨by decide,
    signup_duplicate_rejected_before_hashing (fun s => s) 2
      ⟨"B", "C", "b@x.com", "alice", "pw"⟩
      [⟨1, "alice", "A", "L", "a@x.com", "h1"⟩]
      ⟨1, "alice", "A", "L", "a@x.com", "h1"⟩ (by decide)⟩

/-- C8: every login that does not match a stored (username, password) pair —
whether the username is absent or the password fails verification — yields
the one observable response: 401 with the generic "Invalid credentials". -/
theorem login_failure_generic (verify : String → String → Bool)
    (user : UserLogin) (db : UserDB)
    (h : ∀ row, login_query db user.username = some row →
      verify user.password row.PASSWORD = false) :
    login verify user db = .httpError 401 "Invalid credentials" := by
  unfold login
  cases hq : login_query db user.username with
  | none => simp
  | some r =>
    have hv := h r hq
    simp [hv]

/-- Witness for C8 at a concrete input: "alice" exists but the verifier
rejects the password, and the response is the generic 401. -/
theorem login_failure_generic_witness :
    (∀ row, login_query [⟨1, "alice", "A", "L", "a@x.com", "h1"⟩] "alice" =
        some row → (fun _ _ => false : String → String → Bool) "wrong"
          row.PASSWORD = false) ∧
      login (fun _ _ => false) ⟨"alice", "wrong"⟩
          [⟨1, "alice", "A", "L", "a@x.com", "h1"⟩] =
        .httpError 401 "Invalid credentials" :=
  ⟨fun _ _ => rfl,
    login_failure_generic (fun _ _ => false) ⟨"alice", "wrong"⟩
      [⟨1, "alice", "A", "L", "a@x.com", "h1"⟩] (fun _ _ => rfl)⟩

/-- C9: the HTTP interface routes GET `/health` to the JSON body
`{"status": "ok"}` (app wiring modelled from the spec; see `app_get_routes`). -/
theorem health_endpoint_returns_ok :
    app_handle_get "/health" = some [("status", "ok")] := by
  decide

/-- C10: when no hand is detected in the uploaded image — or preprocessing
raises any exception — `preprocess_with_mediapipe` returns the original image
path unchanged, so `predict_image` forwards the full uncropped image to the
provider and returns the provider's prediction on it, not a
"no prediction available" result. -/
theorem predict_image_no_hand_uses_original (outcome : String → MPOutcome)
    (run_workflow : String → Except String String) (temp_path : String)
    (result : String)
    (h1 : outcome temp_path = MPOutcome.noHand ∨
      outcome temp_path = MPOutcome.exn)
    (h2 : run_workflow temp_path = .ok result) :
    preprocess_with_mediapipe outcome temp_path = temp_path ∧
      predict_image outcome run_workflow temp_path = .ok result := by
  have hp : preprocess_with_mediapipe outcome temp_path = temp_path := by
    rcases h1 with h | h <;> simp [preprocess_with_mediapipe, h]
  refine ⟨hp, ?_⟩
  simp only [predict_image, hp, h2]

/-- Witness for C10 at a concrete input: with no hand detected at
"/tmp/u.jpg", the original path is classified and its prediction returned. -/
theorem predict_image_no_hand_uses_original_witness :
    preprocess_with_mediapipe (fun _ => MPOutcome.noHand) "/tmp/u.jpg" =
        "/tmp/u.jpg" ∧
      predict_image (fun _ => MPOutcome.noHand) (fun _ => Except.ok "A")
        "/tmp/u.jpg" = .ok "A" :=
  predict_image_no_hand_uses_original (fun _ => MPOutcome.noHand)
    (fun _ => Except.ok "A") "/tmp/u.jpg" "A" (Or.inl rfl) rfl

end SignLink
